import Mathlib

/-!
Shallow embedding of the ChatClone streaming chat backend.

Embedded source files:
* `web/src/lib/models/config.ts` — model registry (`AVAILABLE_MODELS`,
  `getModelById`).
* `src/app/api/chat/route.ts` — the `POST /api/chat` handler: pre-checks,
  user-turn persistence, provider resolution (`anthropicModelMap` /
  `openaiModelMap`), the custom SSE stream encoder, and the `onFinish`
  callback (assistant-turn persistence, title generation, timestamp
  bookkeeping).
* `app/api/threads/[id]/route.ts` — the `PATCH` handler that updates a
  thread's title and/or `model_id`.

Persistence (Supabase) is modelled as an explicit in-memory database state
(`DB`); the provider's lazy text stream and the title-generation call are
modelled as explicit outcome parameters.  Side effects are recorded as an
ordered trace of `Action`s so that ordering claims (for example: the user
turn is written before the provider is invoked) are expressible.
-/

namespace ChatClone

/-- `ModelProvider` from `config.ts`: `'openai' | 'anthropic' | 'openrouter'`. -/
inductive ModelProvider
  | openai
  | anthropic
  | openrouter
deriving DecidableEq, Repr

/-- `ModelConfig` from `config.ts`. -/
structure ModelConfig where
  id : String
  name : String
  provider : ModelProvider
  description : String
deriving DecidableEq, Repr

/-- `AVAILABLE_MODELS` from `config.ts`, verbatim. -/
def AVAILABLE_MODELS : List ModelConfig := [
  { id := "openai/gpt-5.1", name := "GPT-5.1", provider := .openrouter,
    description := "Latest generation OpenAI model" },
  { id := "anthropic/claude-sonnet-4.5", name := "Claude Sonnet 4.5", provider := .openrouter,
    description := "Next generation Claude model" },
  { id := "google/gemini-3-pro-preview", name := "Gemini 3 Pro (Preview)", provider := .openrouter,
    description := "Google\x27s latest Gemini preview model" },
  { id := "gpt-4o", name := "GPT-4o", provider := .openai,
    description := "Most capable OpenAI model with vision and advanced reasoning" },
  { id := "gpt-4o-mini", name := "GPT-4o Mini", provider := .openai,
    description := "Faster and more affordable version of GPT-4o" },
  { id := "haiku-4-5", name := "Claude Haiku 4.5", provider := .anthropic,
    description := "Fast and efficient Claude model for quick responses" },
  { id := "anthropic/claude-3.5-sonnet", name := "Claude 3.5 Sonnet", provider := .openrouter,
    description := "Most capable Claude model via OpenRouter" },
  { id := "google/gemini-pro-1.5", name := "Gemini Pro 1.5", provider := .openrouter,
    description := "Google\x27s latest multimodal model" },
  { id := "meta-llama/llama-3.1-70b-instruct", name := "Llama 3.1 70B", provider := .openrouter,
    description := "Meta\x27s powerful open model" },
  { id := "mistralai/mistral-large", name := "Mistral Large", provider := .openrouter,
    description := "Mistral\x27s flagship model" }
]

/-- `getModelById` from `config.ts`. -/
def getModelById (id : String) : Option ModelConfig :=
  AVAILABLE_MODELS.find? (fun model => model.id == id)

/-- The `anthropicModelMap` record literal in `route.ts`. -/
def anthropicModelMap : List (String × String) :=
  [("haiku-4-5", "claude-3-5-haiku-20241022")]

/-- The `openaiModelMap` record literal in `route.ts`. -/
def openaiModelMap : List (String × String) :=
  [("gpt-4o", "gpt-4o"), ("gpt-4o-mini", "gpt-4o-mini")]

/-- JS record lookup `map[key]` returning `undefined` when absent. -/
def lookupMap (m : List (String × String)) (key : String) : Option String :=
  (m.find? (fun p => p.fst == key)).map Prod.snd

/-- Provider branching in `route.ts` (lines 120–146): maps the thread's
`model_id` to the concrete model name handed to the provider SDK.
`anthropic` ids go through `anthropicModelMap` with default
`"claude-3-5-haiku-20241022"`; `openrouter` ids are passed through verbatim;
everything else goes through `openaiModelMap` with default `"gpt-4o"`. -/
def resolveModel (provider : ModelProvider) (modelId : String) : String :=
  match provider with
  | .anthropic => (lookupMap anthropicModelMap modelId).getD "claude-3-5-haiku-20241022"
  | .openrouter => modelId
  | .openai => (lookupMap openaiModelMap modelId).getD "gpt-4o"

/-- Message roles.  `UIMessage.role` and the `role` column of the
`messages` table range over `"user" | "assistant" | "system"`. -/
inductive Role
  | user
  | assistant
  | system
deriving DecidableEq, Repr

/-- One entry of a `UIMessage.parts` array: a `{type:"text", text}` fragment
or a fragment of any other `type`. -/
inductive Part
  | text (s : String)
  | other (kind : String)
deriving DecidableEq, Repr

/-- The `p.type === "text"` test used by the part filters in `route.ts`. -/
def Part.isText : Part → Bool
  | .text _ => true
  | .other _ => false

/-- The `p.text` projection (only ever applied after `isText` filtering). -/
def Part.textOf : Part → String
  | .text s => s
  | .other _ => ""

/-- The value stored in the `content` column of a `messages` row: either a
structured fragment array or a legacy flat content value. -/
inductive StoredContent
  | fragments (ps : List Part)
  | legacy (s : String)
deriving DecidableEq, Repr

/-- Inbound `UIMessage` as destructured by `route.ts`: a role, an optional
`parts` array, and an optional legacy flat `content` field. -/
structure UIMessage where
  role : Role
  parts : Option (List Part)
  content : Option String
deriving DecidableEq, Repr

/-- Content extraction for the user turn (`route.ts` lines 94–103):
`if (lastMessage.parts) … else if (lastMessage.content) … else []`.
JS truthiness: a missing `parts` array falls through; a missing or empty
legacy `content` string falls through to the empty array. -/
def extractContent (m : UIMessage) : StoredContent :=
  match m.parts with
  | some ps => .fragments ps
  | none =>
    match m.content with
    | some c => if c = "" then .fragments [] else .legacy c
    | none => .fragments []

/-- One row of the `messages` table (the persisted Turn entity). -/
structure Message where
  thread_id : String
  role : Role
  content : StoredContent
  model_name : Option String
  sequence_index : Nat
deriving DecidableEq, Repr

/-- One row of the `threads` table (the persisted Conversation entity).
`updated_at` is an abstract timestamp. -/
structure Thread where
  id : String
  user_id : String
  title : String
  model_id : String
  updated_at : Nat
deriving DecidableEq, Repr

/-- The persistence store: the two tables the chat pipeline touches. -/
structure DB where
  threads : List Thread
  messages : List Message
deriving DecidableEq, Repr

/-- `select("*", count: "exact").eq("thread_id", tid)` — the turn count of a
thread (the `count || 0` in `route.ts` absorbs a null count into 0). -/
def countMessages (db : DB) (tid : String) : Nat :=
  (db.messages.filter (fun m => m.thread_id == tid)).length

/-- `from("threads").select(…).eq("id", tid).single()`. -/
def findThread (db : DB) (tid : String) : Option Thread :=
  db.threads.find? (fun t => t.id == tid)

/-- `from("messages").insert(row)`. -/
def insertMessage (db : DB) (m : Message) : DB :=
  { db with messages := db.messages ++ [m] }

/-- `from("threads").update({title?, updated_at}).eq("id", tid)`: sets
`updated_at` to `now` and, when supplied, overwrites the title. -/
def touchThread (db : DB) (tid : String) (title? : Option String) (now : Nat) : DB :=
  { db with
    threads := db.threads.map (fun t =>
      if t.id == tid then
        { t with title := title?.getD t.title, updated_at := now }
      else t) }

/-- The messages of a thread with `role = "user"`. -/
def userMessagesOf (db : DB) (tid : String) : List Message :=
  db.messages.filter (fun m => m.thread_id == tid && m.role == Role.user)

/-- First element by minimal `sequence_index` (ties broken by row order),
i.e. `.order("sequence_index", ascending).limit(1).single()`. -/
def minBySeq : List Message → Option Message
  | [] => none
  | m :: ms =>
    match minBySeq ms with
    | none => some m
    | some m2 => if m.sequence_index ≤ m2.sequence_index then some m else some m2

/-- The `firstUserMessage` query in `onFinish`. -/
def firstUserMessage (db : DB) (tid : String) : Option Message :=
  minBySeq (userMessagesOf db tid)

/-- Text extraction from a stored content value (`onFinish` lines 202–206):
join the `text` of the `type === "text"` fragments when the content is an
array, else the empty string. -/
def contentText : StoredContent → String
  | .fragments ps => String.join ((ps.filter Part.isText).map Part.textOf)
  | .legacy _ => ""

/-- Flattening of one inbound message for the provider call
(`route.ts` lines 150–160): join the text fragments of `parts`, or `""`
when there is no `parts` array. -/
def projectMessage (m : UIMessage) : Role × String :=
  (m.role,
    match m.parts with
    | some ps => String.join ((ps.filter Part.isText).map Part.textOf)
    | none => "")

/-- Strip one leading `"` or `'` quote character
(the `^["']` alternative of the title-trimming regex). -/
def stripLeadingQuote (s : String) : String :=
  match s.data with
  | c :: rest => if c = '"' ∨ c = '\'' then String.mk rest else s
  | [] => s

/-- Strip one trailing `"` or `'` quote character
(the `["']$` alternative of the title-trimming regex). -/
def stripTrailingQuote (s : String) : String :=
  match s.data.reverse with
  | c :: rest => if c = '"' ∨ c = '\'' then String.mk rest.reverse else s
  | [] => s

/-- `titleResult.text.trim().replace(regexQuotes, "")` from `onFinish`. -/
def cleanTitle (s : String) : String :=
  stripTrailingQuote (stripLeadingQuote s.trim)

/-- The typed wire events of the custom SSE stream (`route.ts` lines
259–292), one constructor per `"type"` emitted, with the fields each record
carries; `doneMarker` is the terminating `data: [DONE]` sentinel. -/
inductive WireEvent
  | start
  | startStep
  | textStart (id : String)
  | textDelta (id : String) (delta : String)
  | textEnd (id : String)
  | finishStep
  | finish (finishReason : String)
  | doneMarker
deriving DecidableEq, Repr

/-- Outcome of draining the provider's lazy text stream
(`result.textStream`): either it yields all its chunks and completes, or it
yields a prefix of chunks and then raises. -/
inductive StreamOutcome
  | ok (chunks : List String)
  | errorAfter (chunks : List String)
deriving DecidableEq, Repr

/-- The events the `customStream` `ReadableStream` enqueues for a given
message id and provider-stream outcome, paired with whether the stream was
terminated abnormally (`controller.error`) instead of closed
(`controller.close`).  The three header events are enqueued before the
`for await` loop; each chunk becomes one `text-delta`; the five terminal
steps run only when the loop completes without a raise. -/
def customStream (messageId : String) (outcome : StreamOutcome) :
    List WireEvent × Bool :=
  match outcome with
  | .ok chunks =>
    ([.start, .startStep, .textStart messageId]
      ++ chunks.map (WireEvent.textDelta messageId)
      ++ [.textEnd messageId, .finishStep, .finish "stop", .doneMarker],
     false)
  | .errorAfter chunks =>
    ([.start, .startStep, .textStart messageId]
      ++ chunks.map (WireEvent.textDelta messageId),
     true)

/-- Side effects of one chat request, in execution order: persistence
writes, the provider invocation, the title-generation call, and thread
metadata updates. -/
inductive Action
  | persistUserTurn (m : Message)
  | invokeProvider (concreteModel : String) (payload : List (Role × String))
      (systemInstruction : Option String)
  | persistAssistantTurn (m : Message)
  | invokeTitleSynth (userText : String) (assistantText : String)
  | updateTitle (tid : String) (title : String)
  | updateTimestamp (tid : String)
deriving DecidableEq, Repr

/-- The `onFinish` callback of `streamText` (`route.ts` lines 162–252),
run on normal stream completion with the accumulated full text.  It
re-reads the thread's turn count, inserts the assistant turn (content: one
text fragment holding `text`; `model_name`: the thread's `model_id`), and
then either attempts title generation (when the new turn's
`sequence_index` is 1 and a first user message exists) or just bumps the
thread's `updated_at`.  `titleResult` is the outcome of the `generateText`
call; a raise (`.error`) is caught and the timestamp still updated. -/
def onFinish (db : DB) (tid : String) (modelId : String) (text : String)
    (titleResult : Except Unit String) (now : Nat) : DB × List Action :=
  let sequenceIndex := countMessages db tid
  let assistantMsg : Message :=
    { thread_id := tid, role := .assistant,
      content := .fragments [.text text],
      model_name := some modelId,
      sequence_index := sequenceIndex }
  let db1 := insertMessage db assistantMsg
  if sequenceIndex = 1 then
    match firstUserMessage db1 tid with
    | some fm =>
      let userText := contentText fm.content
      match titleResult with
      | .ok raw =>
        let generatedTitle := cleanTitle raw
        (touchThread db1 tid (some generatedTitle) now,
         [.persistAssistantTurn assistantMsg, .invokeTitleSynth userText text,
          .updateTitle tid generatedTitle])
      | .error _ =>
        (touchThread db1 tid none now,
         [.persistAssistantTurn assistantMsg, .invokeTitleSynth userText text,
          .updateTimestamp tid])
    | none =>
      (db1, [.persistAssistantTurn assistantMsg])
  else
    (touchThread db1 tid none now,
     [.persistAssistantTurn assistantMsg, .updateTimestamp tid])

/-- Pre-stream failures of the chat handler: 401, missing `threadId` (400),
unresolvable thread (404), unknown model id (400). -/
inductive ChatError
  | unauthorized
  | missingThreadId
  | threadNotFound
  | invalidModel (id : String)
deriving DecidableEq, Repr

/-- The inbound chat request: the `threadId` query parameter, the parsed
JSON body's `threadId`, `messages` and `system` fields. -/
structure ChatRequest where
  threadIdQuery : Option String
  threadIdBody : Option String
  messages : List UIMessage
  systemInstruction : Option String
deriving DecidableEq, Repr

/-- `threadIdFromQuery || threadIdFromBody` followed by the
`if (!threadId)` guard: JS `||` skips a falsy (absent or empty) query
value, and a falsy final value fails the guard. -/
def effectiveThreadId (req : ChatRequest) : Option String :=
  let fromQuery : Option String :=
    match req.threadIdQuery with
    | some s => if s = "" then none else some s
    | none => none
  match fromQuery with
  | some s => some s
  | none =>
    match req.threadIdBody with
    | some s => if s = "" then none else some s
    | none => none

instance {ε α : Type} [DecidableEq ε] [DecidableEq α] :
    DecidableEq (Except ε α) := fun a b =>
  match a, b with
  | .error e, .error f => decidable_of_iff (e = f) (by simp)
  | .error _, .ok _ => isFalse (by simp)
  | .ok _, .error _ => isFalse (by simp)
  | .ok x, .ok y => decidable_of_iff (x = y) (by simp)

/-- Result of one full chat request: the structured pre-stream response
(error, or the emitted wire events with the aborted flag), the database
after all writes, and the ordered side-effect trace. -/
structure ChatResult where
  response : Except ChatError (List WireEvent × Bool)
  db : DB
  trace : List Action
deriving DecidableEq, Repr

/-- The pre-stream user-turn step of the chat handler (`route.ts` lines
82–118): when the inbound message list's last entry has role user, read
the thread's current turn count, extract the content, and insert the user
turn with `sequence_index` equal to the count read; otherwise write
nothing.  Returns the resulting database and the actions performed. -/
def userStep (req : ChatRequest) (db : DB) (threadId : String) :
    DB × List Action :=
  match req.messages.getLast? with
  | some lastMessage =>
    if lastMessage.role = .user then
      let m : Message :=
        { thread_id := threadId, role := .user,
          content := extractContent lastMessage,
          model_name := none,
          sequence_index := countMessages db threadId }
      (insertMessage db m, [.persistUserTurn m])
    else (db, [])
  | none => (db, [])

/-- The `POST /api/chat` handler (`route.ts`), end to end, for one request:
auth gate, thread-id resolution, thread fetch, model-registry lookup,
conditional user-turn insert, provider resolution and invocation, stream
encoding, and — when the provider stream completes normally — the
`onFinish` persistence and title work.  `user?` is the authenticated user
id, `outcome` the provider stream's behaviour, `titleResult` the
title-generation outcome, `messageId` the run-scoped id minted for the
stream, `now` the timestamp written by thread updates. -/
def chatPOST (user? : Option String) (req : ChatRequest) (db : DB)
    (outcome : StreamOutcome) (titleResult : Except Unit String)
    (messageId : String) (now : Nat) : ChatResult :=
  match user? with
  | none => ⟨.error .unauthorized, db, []⟩
  | some _ =>
    match effectiveThreadId req with
    | none => ⟨.error .missingThreadId, db, []⟩
    | some threadId =>
      match findThread db threadId with
      | none => ⟨.error .threadNotFound, db, []⟩
      | some thread =>
        match getModelById thread.model_id with
        | none => ⟨.error (.invalidModel thread.model_id), db, []⟩
        | some modelConfig =>
          let stepped := userStep req db threadId
          let concreteModel := resolveModel modelConfig.provider thread.model_id
          let providerCall : Action :=
            .invokeProvider concreteModel (req.messages.map projectMessage)
              req.systemInstruction
          let streamed := customStream messageId outcome
          match outcome with
          | .ok chunks =>
            let text := String.join chunks
            let finished :=
              onFinish stepped.1 threadId thread.model_id text titleResult now
            ⟨.ok streamed, finished.1,
             stepped.2 ++ [providerCall] ++ finished.2⟩
          | .errorAfter _ =>
            ⟨.ok streamed, stepped.1, stepped.2 ++ [providerCall]⟩

/-- Failures of the thread `PATCH` handler. -/
inductive PatchError
  | unauthorized
  | noFields
  | notFound
deriving DecidableEq, Repr

/-- The parsed `PATCH /api/threads/[id]` body: each field is present
(`some`) or absent. -/
structure PatchBody where
  title : Option String
  model_id : Option String
deriving DecidableEq, Repr

/-- The `PATCH /api/threads/[id]` handler (`app/api/threads/[id]/route.ts`
lines 73–113): after the auth gate it builds `updates` from the fields
present in the body (400 when none), then updates the thread matching both
the id and the caller's `user_id` (`.single()` errors when no row
matches), returning the updated row. -/
def patchThread (user? : Option String) (id : String) (body : PatchBody)
    (db : DB) : Except PatchError (DB × Thread) :=
  match user? with
  | none => .error .unauthorized
  | some uid =>
    if body.title = none ∧ body.model_id = none then .error .noFields
    else
      match db.threads.find? (fun t => t.id == id && t.user_id == uid) with
      | none => .error .notFound
      | some t =>
        let updated : Thread :=
          { t with title := body.title.getD t.title,
                   model_id := body.model_id.getD t.model_id }
        let db2 : DB :=
          { db with
            threads := db.threads.map (fun th =>
              if th.id == id && th.user_id == uid then
                { th with title := body.title.getD th.title,
                          model_id := body.model_id.getD th.model_id }
              else th) }
        .ok (db2, updated)

/-! ### Observation helpers over traces, events and states -/

/-- The user turns written during a request, in order. -/
def userTurns (tr : List Action) : List Message :=
  tr.filterMap fun a =>
    match a with
    | .persistUserTurn m => some m
    | _ => none

/-- The assistant turns written during a request, in order. -/
def assistantTurns (tr : List Action) : List Message :=
  tr.filterMap fun a =>
    match a with
    | .persistAssistantTurn m => some m
    | _ => none

/-- The concrete model names of the provider invocations in a trace. -/
def providerModels (tr : List Action) : List String :=
  tr.filterMap fun a =>
    match a with
    | .invokeProvider concreteModel _ _ => some concreteModel
    | _ => none

/-- Whether the trace contains a Title Synthesizer invocation. -/
def traceInvokesTitle (tr : List Action) : Bool :=
  tr.any fun a =>
    match a with
    | .invokeTitleSynth _ _ => true
    | _ => false

/-- The sequence numbers of the assistant turns written during a request. -/
def assistantSeqs (tr : List Action) : List Nat :=
  (assistantTurns tr).map Message.sequence_index

/-- The `(id, delta)` payloads of the `text-delta` events, in emission
order. -/
def deltaRecords (es : List WireEvent) : List (String × String) :=
  es.filterMap fun e =>
    match e with
    | .textDelta i d => some (i, d)
    | _ => none

/-- The delta payloads of the `text-delta` events, in emission order. -/
def deltaPayloads (es : List WireEvent) : List String :=
  (deltaRecords es).map Prod.snd

/-- The ids of the `text-start` events. -/
def textStarts (es : List WireEvent) : List String :=
  es.filterMap fun e =>
    match e with
    | .textStart i => some i
    | _ => none

/-- The ids of the `text-end` events. -/
def textEnds (es : List WireEvent) : List String :=
  es.filterMap fun e =>
    match e with
    | .textEnd i => some i
    | _ => none

/-- The events that close a stream normally: `text-end`, `finish-step`,
`finish` and the end-marker. -/
def isTerminal : WireEvent → Bool
  | .textEnd _ => true
  | .finishStep => true
  | .finish _ => true
  | .doneMarker => true
  | _ => false

/-- The wire events of a chat result (empty on a pre-stream error). -/
def eventsOf (r : ChatResult) : List WireEvent :=
  match r.response with
  | .ok (es, _) => es
  | .error _ => []

/-- Whether a thread has at least one persisted user turn. -/
def hasUserMessage (db : DB) (tid : String) : Bool :=
  db.messages.any fun m => m.thread_id == tid && m.role == Role.user

/-- The `(id, model_id)` pairs of all threads, the observable the
model-locking claims are about. -/
def threadModels (db : DB) : List (String × String) :=
  db.threads.map fun t => (t.id, t.model_id)

/-! ### Concrete fixtures used by witnesses and counterexamples -/

/-- A fresh thread on the `gpt-4o` registry model. -/
def th1 : Thread := { id := "t1", user_id := "u1", title := "New Chat",
                      model_id := "gpt-4o", updated_at := 0 }

/-- A database holding `th1` and no messages. -/
def db0 : DB := { threads := [th1], messages := [] }

/-- A request whose last (only) message is a user message "Hi". -/
def reqHi : ChatRequest :=
  { threadIdQuery := some "t1", threadIdBody := none,
    messages := [{ role := .user, parts := some [.text "Hi"], content := none }],
    systemInstruction := none }

/-- A thread whose stored model id has no registry entry. -/
def thBad : Thread := { id := "t2", user_id := "u1", title := "New Chat",
                        model_id := "bad-model", updated_at := 0 }

/-- A database holding only `thBad`. -/
def dbBad : DB := { threads := [thBad], messages := [] }

/-- `th1`'s database after one persisted assistant turn (sequence 0) and
no user turn. -/
def dbAsst : DB :=
  { threads := [th1],
    messages := [{ thread_id := "t1", role := .assistant,
                   content := .fragments [.text "prev"],
                   model_name := some "gpt-4o", sequence_index := 0 }] }

/-- A request whose last message has role assistant, not user. -/
def reqAsst : ChatRequest :=
  { threadIdQuery := some "t1", threadIdBody := none,
    messages := [{ role := .assistant, parts := some [.text "ok"], content := none }],
    systemInstruction := none }

/-- A fresh thread on the `haiku-4-5` registry model (provider anthropic). -/
def thHaiku : Thread := { id := "t3", user_id := "u1", title := "New Chat",
                          model_id := "haiku-4-5", updated_at := 0 }

/-- A database holding `thHaiku` and no messages. -/
def dbHaiku : DB := { threads := [thHaiku], messages := [] }

/-- A request to `thHaiku` whose last message is a user message. -/
def reqHaiku : ChatRequest :=
  { threadIdQuery := some "t3", threadIdBody := none,
    messages := [{ role := .user, parts := some [.text "Hi"], content := none }],
    systemInstruction := none }

/-- `th1`'s database after one persisted user turn: the thread has a turn,
so under the model-locking invariant its model id should be frozen. -/
def dbLocked : DB :=
  { threads := [th1],
    messages := [{ thread_id := "t1", role := .user,
                   content := .fragments [.text "Hi"],
                   model_name := none, sequence_index := 0 }] }

/-- The registry entry for `"gpt-4o"`. -/
def gpt4oCfg : ModelConfig :=
  { id := "gpt-4o", name := "GPT-4o", provider := .openai,
    description := "Most capable OpenAI model with vision and advanced reasoning" }

/-! ### Theorems -/

/-- Claim C10: for every model id present in the registry, model resolution
never fails (it always yields a nonempty concrete name): an `anthropic` id
absent from the anthropic name map silently defaults to
`"claude-3-5-haiku-20241022"`; an id whose provider is neither `anthropic`
nor `openrouter` and absent from the openai name map silently defaults to
`"gpt-4o"`; only `openrouter` ids are passed through verbatim (the
anthropic and openai branches are not the identity). -/
theorem resolveModel_total_with_silent_defaults :
    (∀ cfg ∈ AVAILABLE_MODELS, resolveModel cfg.provider cfg.id ≠ "")
    ∧ (∀ id, lookupMap anthropicModelMap id = none →
        resolveModel .anthropic id = "claude-3-5-haiku-20241022")
    ∧ (∀ id, lookupMap openaiModelMap id = none →
        resolveModel .openai id = "gpt-4o")
    ∧ (∀ id, resolveModel .openrouter id = id)
    ∧ resolveModel .anthropic "haiku-4-5" ≠ "haiku-4-5"
    ∧ resolveModel .openai "o3-unlisted" ≠ "o3-unlisted" := by
  refine ⟨?_, ?_, ?_, ?_, ?_, ?_⟩
  · intro cfg hcfg
    fin_cases hcfg <;> decide
  · intro id h
    simp [resolveModel, h]
  · intro id h
    simp [resolveModel, h]
  · intro id
    rfl
  · decide
  · decide

/-- Witness for C10: an anthropic id absent from the anthropic name map
resolves to the default `"claude-3-5-haiku-20241022"`. -/
theorem resolveModel_total_with_silent_defaults_witness :
    resolveModel .anthropic "not-in-map" = "claude-3-5-haiku-20241022" :=
  resolveModel_total_with_silent_defaults.2.1 "not-in-map" (by decide)

/-- `textStarts` distributes over append. -/
theorem textStarts_append (a b : List WireEvent) :
    textStarts (a ++ b) = textStarts a ++ textStarts b := by
  simp [textStarts, List.filterMap_append]

/-- `textEnds` distributes over append. -/
theorem textEnds_append (a b : List WireEvent) :
    textEnds (a ++ b) = textEnds a ++ textEnds b := by
  simp [textEnds, List.filterMap_append]

/-- `deltaRecords` distributes over append. -/
theorem deltaRecords_append (a b : List WireEvent) :
    deltaRecords (a ++ b) = deltaRecords a ++ deltaRecords b := by
  simp [deltaRecords, List.filterMap_append]

/-- A run of `text-delta` events contains no `text-start`. -/
theorem textStarts_deltas (i : String) (cs : List String) :
    textStarts (cs.map (WireEvent.textDelta i)) = [] := by
  simp [textStarts]

/-- A run of `text-delta` events contains no `text-end`. -/
theorem textEnds_deltas (i : String) (cs : List String) :
    textEnds (cs.map (WireEvent.textDelta i)) = [] := by
  simp [textEnds]

/-- The `text-delta` records of a run of `text-delta` events are exactly the
chunks, each tagged with the run's id. -/
theorem deltaRecords_deltas (i : String) (cs : List String) :
    deltaRecords (cs.map (WireEvent.textDelta i)) = cs.map (fun c => (i, c)) := by
  induction cs with
  | nil => rfl
  | cons c t ih => simpa [deltaRecords, List.filterMap_cons] using ih

/-- No `text-delta` event is a stream-closing event. -/
theorem deltas_not_terminal (i : String) (cs : List String) :
    (cs.map (WireEvent.textDelta i)).all (fun e => !(isTerminal e)) = true := by
  simp [isTerminal]

/-- Inserting a message leaves the `threads` table unchanged, so thread
lookup is unaffected. -/
theorem findThread_insertMessage (db : DB) (m : Message) (tid : String) :
    findThread (insertMessage db m) tid = findThread db tid := rfl

/-- Updating thread metadata leaves the `messages` table unchanged, so the
first-user-message query is unaffected. -/
theorem firstUser_touchThread (db : DB) (tid2 : String) (title? : Option String)
    (now : Nat) (tid : String) :
    firstUserMessage (touchThread db tid2 title? now) tid = firstUserMessage db tid := rfl

/-- A thread-metadata update never changes any thread's `model_id`. -/
theorem threadModels_touchThread (db : DB) (tid : String) (title? : Option String)
    (now : Nat) :
    threadModels (touchThread db tid title? now) = threadModels db := by
  simp only [threadModels, touchThread, List.map_map]
  apply List.map_congr_left
  intro t _
  by_cases h : t.id == tid <;> simp [h, Function.comp]

/-- A thread-metadata update rewrites exactly the matching thread's title
and timestamp. -/
theorem findThread_touchThread (db : DB) (tid : String) (title? : Option String)
    (now : Nat) :
    findThread (touchThread db tid title? now) tid =
      (findThread db tid).map
        (fun t => { t with title := title?.getD t.title, updated_at := now }) := by
  obtain ⟨ts, ms⟩ := db
  simp only [findThread, touchThread]
  induction ts with
  | nil => rfl
  | cons t ts ih =>
    simp only [List.map_cons, List.find?_cons]
    by_cases h : t.id == tid
    · have h2 : (({ t with
          title := title?.getD t.title,
          updated_at := now } : Thread).id == tid) = true := h
      rw [if_pos h]
      simp only [h, h2]
      rfl
    · rw [if_neg h]
      simp only [Bool.not_eq_true] at h
      simp only [h]
      exact ih

/-- The user-turn step never writes an assistant turn. -/
theorem assistantTurns_userStep (req : ChatRequest) (db : DB) (tid : String) :
    assistantTurns (userStep req db tid).2 = [] := by
  unfold userStep
  repeat' split
  all_goals simp [assistantTurns]

/-- The user-turn step never invokes the Title Synthesizer. -/
theorem titleInvoked_userStep (req : ChatRequest) (db : DB) (tid : String) :
    traceInvokesTitle (userStep req db tid).2 = false := by
  unfold userStep
  repeat' split
  all_goals simp [traceInvokesTitle]

/-- The user-turn step never changes any thread's `model_id`. -/
theorem threadModels_userStep (req : ChatRequest) (db : DB) (tid : String) :
    threadModels (userStep req db tid).1 = threadModels db := by
  unfold userStep
  repeat' split
  all_goals rfl

/-- The user-turn step leaves the `threads` table unchanged. -/
theorem findThread_userStep (req : ChatRequest) (db : DB) (tid tid2 : String) :
    findThread (userStep req db tid).1 tid2 = findThread db tid2 := by
  unfold userStep
  repeat' split
  all_goals rfl

/-- `onFinish` persists exactly one assistant turn: content is the single
text fragment holding the accumulated text, `model_name` is the thread's
stored model id, and the sequence number is the turn count read at
assistant-write time. -/
theorem assistantTurns_onFinish (db : DB) (tid mid text : String)
    (tr : Except Unit String) (now : Nat) :
    assistantTurns (onFinish db tid mid text tr now).2 =
      [{ thread_id := tid, role := .assistant, content := .fragments [.text text],
         model_name := some mid, sequence_index := countMessages db tid }] := by
  unfold onFinish
  dsimp only
  repeat' split
  all_goals simp [assistantTurns]

/-- `onFinish` never writes a user turn. -/
theorem userTurns_onFinish (db : DB) (tid mid text : String)
    (tr : Except Unit String) (now : Nat) :
    userTurns (onFinish db tid mid text tr now).2 = [] := by
  unfold onFinish
  dsimp only
  repeat' split
  all_goals simp [userTurns]

/-- `onFinish` never changes any thread's `model_id`. -/
theorem threadModels_onFinish (db : DB) (tid mid text : String)
    (tr : Except Unit String) (now : Nat) :
    threadModels (onFinish db tid mid text tr now).1 = threadModels db := by
  unfold onFinish
  dsimp only
  repeat' split
  all_goals simp [threadModels_touchThread]
  all_goals rfl

/-- `onFinish` invokes the Title Synthesizer exactly when the turn count it
read was 1 and the first-user-message query (run after the assistant
insert) finds a user turn. -/
theorem titleInvoked_onFinish (db : DB) (tid mid text : String)
    (tr : Except Unit String) (now : Nat) :
    traceInvokesTitle (onFinish db tid mid text tr now).2 = true ↔
      (countMessages db tid = 1 ∧
        (firstUserMessage (onFinish db tid mid text tr now).1 tid).isSome = true) := by
  unfold onFinish
  dsimp only
  repeat' split
  all_goals simp_all [traceInvokesTitle, firstUser_touchThread]

/-- `userTurns` distributes over append. -/
theorem userTurns_append (a b : List Action) :
    userTurns (a ++ b) = userTurns a ++ userTurns b := by
  simp [userTurns, List.filterMap_append]

/-- `assistantTurns` distributes over append. -/
theorem assistantTurns_append (a b : List Action) :
    assistantTurns (a ++ b) = assistantTurns a ++ assistantTurns b := by
  simp [assistantTurns, List.filterMap_append]

/-- `traceInvokesTitle` distributes over append. -/
theorem titleInvoked_append (a b : List Action) :
    traceInvokesTitle (a ++ b) = (traceInvokesTitle a || traceInvokesTitle b) := by
  simp [traceInvokesTitle, List.any_append]

/-- The empty trace holds no user turn. -/
theorem userTurns_nil : userTurns [] = [] := rfl

/-- A provider invocation is not a user turn. -/
theorem userTurns_provider (c : String) (p : List (Role × String))
    (s : Option String) : userTurns [Action.invokeProvider c p s] = [] := rfl

/-- The empty trace holds no assistant turn. -/
theorem assistantTurns_nil : assistantTurns [] = [] := rfl

/-- A provider invocation is not an assistant turn. -/
theorem assistantTurns_provider (c : String) (p : List (Role × String))
    (s : Option String) : assistantTurns [Action.invokeProvider c p s] = [] := rfl

/-- A provider invocation is not a Title Synthesizer call. -/
theorem titleInvoked_provider (c : String) (p : List (Role × String))
    (s : Option String) : traceInvokesTitle [Action.invokeProvider c p s] = false := rfl

/-- A leading provider invocation contributes no user turn. -/
theorem userTurns_cons_provider (c : String) (p : List (Role × String))
    (s : Option String) (l : List Action) :
    userTurns (Action.invokeProvider c p s :: l) = userTurns l := rfl

/-- A leading provider invocation contributes no assistant turn. -/
theorem assistantTurns_cons_provider (c : String) (p : List (Role × String))
    (s : Option String) (l : List Action) :
    assistantTurns (Action.invokeProvider c p s :: l) = assistantTurns l := rfl

/-- A leading provider invocation is not a Title Synthesizer call. -/
theorem titleInvoked_cons_provider (c : String) (p : List (Role × String))
    (s : Option String) (l : List Action) :
    traceInvokesTitle (Action.invokeProvider c p s :: l) = traceInvokesTitle l := rfl

/-- A leading user-turn write is not a Title Synthesizer call. -/
theorem titleInvoked_cons_userTurn (m : Message) (l : List Action) :
    traceInvokesTitle (Action.persistUserTurn m :: l) = traceInvokesTitle l := rfl

/-- A leading user-turn write contributes no assistant turn. -/
theorem assistantTurns_cons_userTurn (m : Message) (l : List Action) :
    assistantTurns (Action.persistUserTurn m :: l) = assistantTurns l := rfl

/-- When the inbound list's last entry has role user, the user-turn step
inserts exactly that turn, with the turn count read as sequence number. -/
theorem userStep_user (req : ChatRequest) (db : DB) (tid : String)
    (lm : UIMessage) (hlast : req.messages.getLast? = some lm)
    (hrole : lm.role = .user) :
    userStep req db tid =
      (insertMessage db
        { thread_id := tid, role := .user, content := extractContent lm,
          model_name := none, sequence_index := countMessages db tid },
       [Action.persistUserTurn
        { thread_id := tid, role := .user, content := extractContent lm,
          model_name := none, sequence_index := countMessages db tid }]) := by
  simp [userStep, hlast, hrole]

/-- When the inbound list is empty or its last entry is not a user message,
the user-turn step writes nothing. -/
theorem userStep_nonuser (req : ChatRequest) (db : DB) (tid : String)
    (h : ∀ lm, req.messages.getLast? = some lm → lm.role ≠ .user) :
    userStep req db tid = (db, []) := by
  unfold userStep
  cases hl : req.messages.getLast? with
  | none => rfl
  | some lm => simp [h lm hl]

/-- Characterization of a chat call whose provider stream completes
normally, under the pre-check hypotheses: the response wraps the encoded
stream, and the final state and trace compose the user-turn step, the
provider invocation and the `onFinish` work. -/
theorem chatPOST_ok_spec
    (u : String) (req : ChatRequest) (db : DB) (chunks : List String)
    (titleResult : Except Unit String) (messageId : String) (now : Nat)
    (tid : String) (thread : Thread) (cfg : ModelConfig)
    (htid : effectiveThreadId req = some tid)
    (hthread : findThread db tid = some thread)
    (hmodel : getModelById thread.model_id = some cfg) :
    chatPOST (some u) req db (.ok chunks) titleResult messageId now =
      ⟨.ok (customStream messageId (.ok chunks)),
       (onFinish (userStep req db tid).1 tid thread.model_id
         (String.join chunks) titleResult now).1,
       (userStep req db tid).2
         ++ [Action.invokeProvider (resolveModel cfg.provider thread.model_id)
              (req.messages.map projectMessage) req.systemInstruction]
         ++ (onFinish (userStep req db tid).1 tid thread.model_id
              (String.join chunks) titleResult now).2⟩ := by
  simp [chatPOST, htid, hthread, hmodel]

/-- Characterization of a chat call whose provider stream raises after a
prefix of chunks, under the pre-check hypotheses: the response wraps the
truncated stream with the aborted flag, and `onFinish` never runs. -/
theorem chatPOST_err_spec
    (u : String) (req : ChatRequest) (db : DB) (pfx : List String)
    (titleResult : Except Unit String) (messageId : String) (now : Nat)
    (tid : String) (thread : Thread) (cfg : ModelConfig)
    (htid : effectiveThreadId req = some tid)
    (hthread : findThread db tid = some thread)
    (hmodel : getModelById thread.model_id = some cfg) :
    chatPOST (some u) req db (.errorAfter pfx) titleResult messageId now =
      ⟨.ok (customStream messageId (.errorAfter pfx)),
       (userStep req db tid).1,
       (userStep req db tid).2
         ++ [Action.invokeProvider (resolveModel cfg.provider thread.model_id)
              (req.messages.map projectMessage) req.systemInstruction]⟩ := by
  simp [chatPOST, htid, hthread, hmodel]

/-- Claim C5: when the conversation's stored model id has no registry
entry, the chat call returns the invalid-model error, the database is
unchanged (no turn persisted) and the side-effect trace is empty (no
provider invocation). -/
theorem unknown_model_rejected_before_effects
    (u : String) (req : ChatRequest) (db : DB) (outcome : StreamOutcome)
    (titleResult : Except Unit String) (messageId : String) (now : Nat)
    (tid : String) (thread : Thread)
    (htid : effectiveThreadId req = some tid)
    (hthread : findThread db tid = some thread)
    (hmodel : getModelById thread.model_id = none) :
    chatPOST (some u) req db outcome titleResult messageId now =
      ⟨.error (.invalidModel thread.model_id), db, []⟩ := by
  simp [chatPOST, htid, hthread, hmodel]

/-- Witness for C5: a request against `thBad` (stored model id
`"bad-model"`) is rejected with no write and no provider call. -/
theorem unknown_model_rejected_before_effects_witness :
    chatPOST (some "u1") ⟨some "t2", none, [], none⟩ dbBad (.ok ["x"])
        (.ok "t") "m1" 5 =
      ⟨.error (.invalidModel "bad-model"), dbBad, []⟩ :=
  unknown_model_rejected_before_effects "u1" ⟨some "t2", none, [], none⟩
    dbBad (.ok ["x"]) (.ok "t") "m1" 5 "t2" thBad rfl rfl rfl

/-- Claim C3: when the provider stream completes without error, the emitted
wire-event sequence is exactly `start, start-step, text-start, one
text-delta per chunk in arrival order, text-end, finish-step,
finish("stop"), end-marker`; exactly one `text-start`/`text-end` pair is
emitted, and all of `text-start`, the `text-delta`s and `text-end` carry
the single run-scoped message id. -/
theorem stream_events_normal_lifecycle
    (u : String) (req : ChatRequest) (db : DB) (chunks : List String)
    (titleResult : Except Unit String) (messageId : String) (now : Nat)
    (tid : String) (thread : Thread) (cfg : ModelConfig)
    (htid : effectiveThreadId req = some tid)
    (hthread : findThread db tid = some thread)
    (hmodel : getModelById thread.model_id = some cfg) :
    eventsOf (chatPOST (some u) req db (.ok chunks) titleResult messageId now) =
      [.start, .startStep, .textStart messageId]
        ++ chunks.map (WireEvent.textDelta messageId)
        ++ [.textEnd messageId, .finishStep, .finish "stop", .doneMarker]
    ∧ textStarts
        (eventsOf (chatPOST (some u) req db (.ok chunks) titleResult messageId now)) =
      [messageId]
    ∧ textEnds
        (eventsOf (chatPOST (some u) req db (.ok chunks) titleResult messageId now)) =
      [messageId]
    ∧ deltaRecords
        (eventsOf (chatPOST (some u) req db (.ok chunks) titleResult messageId now)) =
      chunks.map (fun c => (messageId, c)) := by
  have h1 : eventsOf (chatPOST (some u) req db (.ok chunks) titleResult messageId now) =
      [.start, .startStep, .textStart messageId]
        ++ chunks.map (WireEvent.textDelta messageId)
        ++ [.textEnd messageId, .finishStep, .finish "stop", .doneMarker] := by
    simp [chatPOST, htid, hthread, hmodel, eventsOf, customStream]
  refine ⟨h1, ?_, ?_, ?_⟩ <;> rw [h1]
  · rw [textStarts_append, textStarts_append, textStarts_deltas]
    rfl
  · rw [textEnds_append, textEnds_append, textEnds_deltas]
    rfl
  · rw [deltaRecords_append, deltaRecords_append, deltaRecords_deltas]
    simp [deltaRecords]

/-- Witness for C3: the concrete run on `db0`/`reqHi` with chunks
`["Hel", "lo"]` emits exactly the normal lifecycle. -/
theorem stream_events_normal_lifecycle_witness :
    eventsOf (chatPOST (some "u1") reqHi db0 (.ok ["Hel", "lo"]) (.ok "T") "m1" 5) =
      [.start, .startStep, .textStart "m1", .textDelta "m1" "Hel",
       .textDelta "m1" "lo", .textEnd "m1", .finishStep, .finish "stop",
       .doneMarker] :=
  (stream_events_normal_lifecycle "u1" reqHi db0 ["Hel", "lo"] (.ok "T")
    "m1" 5 "t1" th1 ⟨"gpt-4o", "GPT-4o", .openai,
      "Most capable OpenAI model with vision and advanced reasoning"⟩
    rfl rfl rfl).1

/-- Claim C1: under the pre-check hypotheses, if the inbound message
list's last entry has role user, the trace starts with exactly one new user
Turn followed immediately by the provider invocation (so the write precedes
the provider call and no further user turn is ever written), and its
sequence number equals the conversation's turn count read before the
write; if the last entry does not have role user, no user Turn is written
at all. -/
theorem chat_persists_user_turn_before_provider
    (u : String) (req : ChatRequest) (db : DB) (outcome : StreamOutcome)
    (titleResult : Except Unit String) (messageId : String) (now : Nat)
    (tid : String) (thread : Thread) (cfg : ModelConfig)
    (htid : effectiveThreadId req = some tid)
    (hthread : findThread db tid = some thread)
    (hmodel : getModelById thread.model_id = some cfg) :
    ((∃ lm, req.messages.getLast? = some lm ∧ lm.role = .user) →
      ∃ m rest,
        (chatPOST (some u) req db outcome titleResult messageId now).trace =
          Action.persistUserTurn m
            :: Action.invokeProvider (resolveModel cfg.provider thread.model_id)
                 (req.messages.map projectMessage) req.systemInstruction
            :: rest
        ∧ m.sequence_index = countMessages db tid
        ∧ m.thread_id = tid
        ∧ m.role = .user
        ∧ userTurns rest = [])
    ∧ ((∀ lm, req.messages.getLast? = some lm → lm.role ≠ .user) →
        userTurns
          (chatPOST (some u) req db outcome titleResult messageId now).trace = []) := by
  constructor
  · rintro ⟨lm, hlast, hrole⟩
    cases outcome with
    | ok chunks =>
      rw [chatPOST_ok_spec u req db chunks titleResult messageId now tid thread
            cfg htid hthread hmodel,
          userStep_user req db tid lm hlast hrole]
      exact ⟨_, _, rfl, rfl, rfl, rfl, userTurns_onFinish _ _ _ _ _ _⟩
    | errorAfter pfx =>
      rw [chatPOST_err_spec u req db pfx titleResult messageId now tid thread
            cfg htid hthread hmodel,
          userStep_user req db tid lm hlast hrole]
      exact ⟨_, _, rfl, rfl, rfl, rfl, rfl⟩
  · intro h
    cases outcome with
    | ok chunks =>
      rw [chatPOST_ok_spec u req db chunks titleResult messageId now tid thread
            cfg htid hthread hmodel,
          userStep_nonuser req db tid h]
      simp [userTurns_append, userTurns_nil, userTurns_cons_provider,
            userTurns_onFinish]
    | errorAfter pfx =>
      rw [chatPOST_err_spec u req db pfx titleResult messageId now tid thread
            cfg htid hthread hmodel,
          userStep_nonuser req db tid h]
      simp [userTurns_append, userTurns_nil, userTurns_provider]

/-- Witness for C1: on the fresh `db0`/`reqHi` run, the user turn "Hi" is
written first, with sequence number 0, directly before the provider
invocation, and no other user turn is ever written. -/
theorem chat_persists_user_turn_before_provider_witness :
    ∃ m rest,
      (chatPOST (some "u1") reqHi db0 (.ok ["Hello"]) (.ok "T") "m1" 5).trace =
        Action.persistUserTurn m
          :: Action.invokeProvider (resolveModel gpt4oCfg.provider th1.model_id)
               (reqHi.messages.map projectMessage) reqHi.systemInstruction
          :: rest
      ∧ m.sequence_index = countMessages db0 "t1"
      ∧ m.thread_id = "t1"
      ∧ m.role = .user
      ∧ userTurns rest = [] :=
  (chat_persists_user_turn_before_provider "u1" reqHi db0 (.ok ["Hello"])
    (.ok "T") "m1" 5 "t1" th1 gpt4oCfg rfl rfl rfl).1
    ⟨⟨.user, some [.text "Hi"], none⟩, rfl, rfl⟩

/-- On a normally-completed stream, the delta payloads of the emitted
events are exactly the provider's chunks. -/
theorem deltaPayloads_ok (i : String) (chunks : List String) :
    deltaPayloads (customStream i (.ok chunks)).1 = chunks := by
  show deltaPayloads
    ([.start, .startStep, .textStart i]
      ++ chunks.map (WireEvent.textDelta i)
      ++ [.textEnd i, .finishStep, .finish "stop", .doneMarker]) = chunks
  unfold deltaPayloads
  rw [deltaRecords_append, deltaRecords_append, deltaRecords_deltas]
  simp [deltaRecords]

/-- Claim C2: for a request whose provider stream completes normally, the
content persisted in the assistant Turn is a single text fragment holding
exactly the concatenation, in emission order, of the delta payloads of the
text-delta wire events emitted for that request. -/
theorem assistant_turn_matches_emitted_deltas
    (u : String) (req : ChatRequest) (db : DB) (chunks : List String)
    (titleResult : Except Unit String) (messageId : String) (now : Nat)
    (tid : String) (thread : Thread) (cfg : ModelConfig)
    (htid : effectiveThreadId req = some tid)
    (hthread : findThread db tid = some thread)
    (hmodel : getModelById thread.model_id = some cfg) :
    (assistantTurns
        (chatPOST (some u) req db (.ok chunks) titleResult messageId now).trace).map
        Message.content =
      [StoredContent.fragments [Part.text (String.join (deltaPayloads
        (eventsOf (chatPOST (some u) req db (.ok chunks) titleResult messageId now))))]] := by
  have hspec := chatPOST_ok_spec u req db chunks titleResult messageId now tid
    thread cfg htid hthread hmodel
  have hdp : deltaPayloads
      (eventsOf (chatPOST (some u) req db (.ok chunks) titleResult messageId now)) =
      chunks := by
    rw [hspec]
    exact deltaPayloads_ok messageId chunks
  rw [hdp, hspec]
  show (assistantTurns ((userStep req db tid).2 ++ _ ++ _)).map Message.content = _
  rw [assistantTurns_append, assistantTurns_append, assistantTurns_onFinish,
      assistantTurns_userStep, assistantTurns_provider]
  rfl

/-- Witness for C2: on the concrete run with chunks `["Hel", "lo"]`, the
persisted assistant content is the single text fragment equal to the
concatenation of the emitted deltas. -/
theorem assistant_turn_matches_emitted_deltas_witness :
    (assistantTurns
        (chatPOST (some "u1") reqHi db0 (.ok ["Hel", "lo"]) (.ok "T") "m1" 5).trace).map
        Message.content =
      [StoredContent.fragments [Part.text (String.join (deltaPayloads
        (eventsOf (chatPOST (some "u1") reqHi db0 (.ok ["Hel", "lo"]) (.ok "T") "m1" 5))))]] :=
  assistant_turn_matches_emitted_deltas "u1" reqHi db0 ["Hel", "lo"] (.ok "T")
    "m1" 5 "t1" th1 gpt4oCfg rfl rfl rfl

/-- Claim C4: when the provider's text sequence raises after a prefix of
increments, the stream terminates abnormally (aborted flag): every
text-delta for the prefix was emitted, in order, and none of text-end,
finish-step, finish or the end-marker is ever emitted. -/
theorem stream_error_truncates_events
    (u : String) (req : ChatRequest) (db : DB) (pfx : List String)
    (titleResult : Except Unit String) (messageId : String) (now : Nat)
    (tid : String) (thread : Thread) (cfg : ModelConfig)
    (htid : effectiveThreadId req = some tid)
    (hthread : findThread db tid = some thread)
    (hmodel : getModelById thread.model_id = some cfg) :
    (chatPOST (some u) req db (.errorAfter pfx) titleResult messageId now).response =
      .ok ([.start, .startStep, .textStart messageId]
        ++ pfx.map (WireEvent.textDelta messageId), true)
    ∧ deltaRecords
        (eventsOf (chatPOST (some u) req db (.errorAfter pfx) titleResult messageId now)) =
      pfx.map (fun c => (messageId, c))
    ∧ (eventsOf (chatPOST (some u) req db (.errorAfter pfx) titleResult messageId now)).all
        (fun e => !(isTerminal e)) = true := by
  have hspec := chatPOST_err_spec u req db pfx titleResult messageId now tid
    thread cfg htid hthread hmodel
  have hev : eventsOf (chatPOST (some u) req db (.errorAfter pfx) titleResult messageId now) =
      [.start, .startStep, .textStart messageId]
        ++ pfx.map (WireEvent.textDelta messageId) := by
    rw [hspec]
    rfl
  refine ⟨?_, ?_, ?_⟩
  · rw [hspec]
    rfl
  · rw [hev, deltaRecords_append, deltaRecords_deltas]
    rfl
  · rw [hev]
    simp [List.all_append, deltas_not_terminal, isTerminal]

/-- Witness for C4: a provider raise after `["He", "l"]` leaves exactly the
header and those two deltas on the wire, aborted, with no closing events. -/
theorem stream_error_truncates_events_witness :
    (chatPOST (some "u1") reqHi db0 (.errorAfter ["He", "l"]) (.ok "T") "m1" 5).response =
      .ok ([.start, .startStep, .textStart "m1"]
        ++ ["He", "l"].map (WireEvent.textDelta "m1"), true)
    ∧ deltaRecords
        (eventsOf (chatPOST (some "u1") reqHi db0 (.errorAfter ["He", "l"]) (.ok "T") "m1" 5)) =
      ["He", "l"].map (fun c => ("m1", c))
    ∧ (eventsOf (chatPOST (some "u1") reqHi db0 (.errorAfter ["He", "l"]) (.ok "T") "m1" 5)).all
        (fun e => !(isTerminal e)) = true :=
  stream_error_truncates_events "u1" reqHi db0 ["He", "l"] (.ok "T") "m1" 5
    "t1" th1 gpt4oCfg rfl rfl rfl

/-- Counterexample to C6 as stated: a run that persists an assistant Turn
with sequence number 1 and never invokes the Title Synthesizer — the
thread holds one prior assistant turn and no user turn, and the inbound
last message is not a user message, so the first-user-message query comes
back empty.  This refutes the "if" direction of "invoked iff the assistant
Turn received sequence number 1". -/
theorem title_synth_not_invoked_at_seq_one :
    assistantSeqs
      (chatPOST (some "u1") reqAsst dbAsst (.ok ["Hello"]) (.ok "T") "m1" 7).trace = [1]
    ∧ traceInvokesTitle
      (chatPOST (some "u1") reqAsst dbAsst (.ok ["Hello"]) (.ok "T") "m1" 7).trace = false := by
  constructor <;> rfl

/-- Claim C6 (amended): for a request that completes normally, the Title
Synthesizer is invoked iff the persisted assistant Turn received sequence
number 1 and the conversation then holds at least one user turn (the
first-user-message query succeeds); in particular it is never invoked for
any later sequence number. -/
theorem title_synth_iff_first_exchange
    (u : String) (req : ChatRequest) (db : DB) (chunks : List String)
    (titleResult : Except Unit String) (messageId : String) (now : Nat)
    (tid : String) (thread : Thread) (cfg : ModelConfig)
    (htid : effectiveThreadId req = some tid)
    (hthread : findThread db tid = some thread)
    (hmodel : getModelById thread.model_id = some cfg) :
    traceInvokesTitle
        (chatPOST (some u) req db (.ok chunks) titleResult messageId now).trace = true ↔
      (assistantSeqs
          (chatPOST (some u) req db (.ok chunks) titleResult messageId now).trace = [1]
        ∧ (firstUserMessage
            (chatPOST (some u) req db (.ok chunks) titleResult messageId now).db
            tid).isSome = true) := by
  have hspec := chatPOST_ok_spec u req db chunks titleResult messageId now tid
    thread cfg htid hthread hmodel
  rw [hspec]
  dsimp only
  simp only [titleInvoked_append, titleInvoked_userStep, titleInvoked_provider,
    Bool.false_or, assistantSeqs, assistantTurns_append, assistantTurns_userStep,
    assistantTurns_provider, assistantTurns_onFinish, List.nil_append,
    List.map_cons, List.map_nil, titleInvoked_onFinish]
  simp

/-- Witness for C6 (amended): on the fresh `db0`/`reqHi` run the
equivalence holds concretely (both sides true: the assistant turn got
sequence 1, the user turn exists, and the synthesizer ran). -/
theorem title_synth_iff_first_exchange_witness :
    traceInvokesTitle
        (chatPOST (some "u1") reqHi db0 (.ok ["Hello"]) (.ok "T") "m1" 5).trace = true ↔
      (assistantSeqs
          (chatPOST (some "u1") reqHi db0 (.ok ["Hello"]) (.ok "T") "m1" 5).trace = [1]
        ∧ (firstUserMessage
            (chatPOST (some "u1") reqHi db0 (.ok ["Hello"]) (.ok "T") "m1" 5).db
            "t1").isSome = true) :=
  title_synth_iff_first_exchange "u1" reqHi db0 ["Hello"] (.ok "T") "m1" 5
    "t1" th1 gpt4oCfg rfl rfl rfl

/-- When the title-generation call raises and the Title Synthesizer was
invoked, `onFinish` catches the error and still bumps the matching
thread's `updated_at` (leaving its title as it was). -/
theorem onFinish_error_touches (db : DB) (tid mid text : String) (now : Nat)
    (h : traceInvokesTitle (onFinish db tid mid text (.error ()) now).2 = true) :
    findThread (onFinish db tid mid text (.error ()) now).1 tid =
      (findThread db tid).map (fun t => { t with updated_at := now }) := by
  revert h
  unfold onFinish
  dsimp only
  repeat' split
  all_goals intro h
  · rw [findThread_touchThread, findThread_insertMessage]
    simp
  · simp [traceInvokesTitle] at h
  · simp [traceInvokesTitle] at h

/-- Claim C7: when title synthesis was attempted (the synthesizer appears
in the trace) and the title-generation call raised, the chat request still
succeeds (its response is the normally-encoded stream) and the
conversation's `updated_at` is still set to the request's timestamp, title
untouched. -/
theorem title_failure_swallowed_timestamp_updated
    (u : String) (req : ChatRequest) (db : DB) (chunks : List String)
    (messageId : String) (now : Nat)
    (tid : String) (thread : Thread) (cfg : ModelConfig)
    (htid : effectiveThreadId req = some tid)
    (hthread : findThread db tid = some thread)
    (hmodel : getModelById thread.model_id = some cfg)
    (hattempt : traceInvokesTitle
      (chatPOST (some u) req db (.ok chunks) (.error ()) messageId now).trace = true) :
    (chatPOST (some u) req db (.ok chunks) (.error ()) messageId now).response =
      .ok (customStream messageId (.ok chunks))
    ∧ findThread
        (chatPOST (some u) req db (.ok chunks) (.error ()) messageId now).db tid =
      some { thread with updated_at := now } := by
  have hspec := chatPOST_ok_spec u req db chunks (.error ()) messageId now tid
    thread cfg htid hthread hmodel
  constructor
  · rw [hspec]
  · have h2 : traceInvokesTitle
        (onFinish (userStep req db tid).1 tid thread.model_id
          (String.join chunks) (.error ()) now).2 = true := by
      rw [hspec] at hattempt
      dsimp only at hattempt
      rw [titleInvoked_append, titleInvoked_append, titleInvoked_userStep,
        titleInvoked_provider] at hattempt
      simpa using hattempt
    rw [hspec]
    dsimp only
    rw [onFinish_error_touches _ _ _ _ _ h2, findThread_userStep, hthread]
    rfl

/-- Witness for C7: on `db0`/`reqHi` with a failing title call, the request
still succeeds and `th1`'s timestamp becomes 5. -/
theorem title_failure_swallowed_timestamp_updated_witness :
    traceInvokesTitle
      (chatPOST (some "u1") reqHi db0 (.ok ["Hello"]) (.error ()) "m1" 5).trace = true
    ∧ ((chatPOST (some "u1") reqHi db0 (.ok ["Hello"]) (.error ()) "m1" 5).response =
        .ok (customStream "m1" (.ok ["Hello"]))
      ∧ findThread
          (chatPOST (some "u1") reqHi db0 (.ok ["Hello"]) (.error ()) "m1" 5).db "t1" =
        some { th1 with updated_at := 5 }) :=
  ⟨rfl, title_failure_swallowed_timestamp_updated "u1" reqHi db0 ["Hello"]
    "m1" 5 "t1" th1 gpt4oCfg rfl rfl rfl rfl⟩

/-- Counterexample to C8 as stated: `dbLocked` holds a thread with one
persisted turn, yet the thread-update (PATCH) operation with a `model_id`
in the body succeeds and rewrites the conversation's model id from
`"gpt-4o"` to `"haiku-4-5"` — so it is not the case that every reachable
state transition leaves `model_id` unchanged once the first turn exists. -/
theorem patch_mutates_locked_model :
    countMessages dbLocked "t1" = 1
    ∧ patchThread (some "u1") "t1" ⟨none, some "haiku-4-5"⟩ dbLocked =
        .ok ({
               threads := [{ th1 with model_id := "haiku-4-5" }],
               messages := dbLocked.messages },
             { th1 with model_id := "haiku-4-5" })
    ∧ th1.model_id = "gpt-4o" :=
  ⟨rfl, rfl, rfl⟩

/-- Claim C8 (amended): the chat call — including its title and timestamp
updates — never mutates any conversation's model id, and neither does a
thread PATCH whose body omits `model_id`; but a PATCH whose body supplies
a model id overwrites the stored one unconditionally (locking is not
enforced server-side). -/
theorem model_id_immutable_except_patch :
    (∀ (user? : Option String) (req : ChatRequest) (db : DB)
      (outcome : StreamOutcome) (titleResult : Except Unit String)
      (messageId : String) (now : Nat),
      threadModels (chatPOST user? req db outcome titleResult messageId now).db =
        threadModels db)
    ∧ (∀ (user? : Option String) (id : String) (body : PatchBody) (db : DB)
        (db2 : DB) (t : Thread), body.model_id = none →
        patchThread user? id body db = .ok (db2, t) →
        threadModels db2 = threadModels db)
    ∧ (∀ (user? : Option String) (id : String) (body : PatchBody) (db : DB)
        (db2 : DB) (t : Thread) (m : String), body.model_id = some m →
        patchThread user? id body db = .ok (db2, t) → t.model_id = m) := by
  refine ⟨?_, ?_, ?_⟩
  · intro user? req db outcome titleResult messageId now
    cases user? with
    | none => rfl
    | some u =>
      cases htid : effectiveThreadId req with
      | none => simp [chatPOST, htid]
      | some tid =>
        cases hth : findThread db tid with
        | none => simp [chatPOST, htid, hth]
        | some thread =>
          cases hm : getModelById thread.model_id with
          | none => simp [chatPOST, htid, hth, hm]
          | some cfg =>
            cases outcome with
            | ok chunks =>
              simp [chatPOST, htid, hth, hm, threadModels_onFinish,
                threadModels_userStep]
            | errorAfter pfx =>
              simp [chatPOST, htid, hth, hm, threadModels_userStep]
  · intro user? id body db db2 t hnone hpatch
    cases user? with
    | none => simp [patchThread] at hpatch
    | some uid =>
      unfold patchThread at hpatch
      rw [hnone] at hpatch
      dsimp only at hpatch
      split at hpatch
      · simp at hpatch
      · cases hf : db.threads.find? (fun t0 => t0.id == id && t0.user_id == uid) with
        | none =>
          rw [hf] at hpatch
          simp at hpatch
        | some t0 =>
          rw [hf] at hpatch
          simp only [Except.ok.injEq, Prod.mk.injEq] at hpatch
          obtain ⟨h1, h2⟩ := hpatch
          subst h1
          simp only [threadModels, List.map_map]
          apply List.map_congr_left
          intro th _
          by_cases h : th.id == id && th.user_id == uid <;> simp [h, Function.comp]
  · intro user? id body db db2 t m hsome hpatch
    cases user? with
    | none => simp [patchThread] at hpatch
    | some uid =>
      unfold patchThread at hpatch
      rw [hsome] at hpatch
      dsimp only at hpatch
      split at hpatch
      · simp at hpatch
      · cases hf : db.threads.find? (fun t0 => t0.id == id && t0.user_id == uid) with
        | none =>
          rw [hf] at hpatch
          simp at hpatch
        | some t0 =>
          rw [hf] at hpatch
          simp only [Except.ok.injEq, Prod.mk.injEq] at hpatch
          obtain ⟨h1, h2⟩ := hpatch
          subst h2
          rfl

/-- Witness for C8 (amended): a concrete chat call preserves all model
ids; a PATCH without `model_id` preserves them on the locked database;
and a PATCH supplying `"haiku-4-5"` yields a thread carrying it. -/
theorem model_id_immutable_except_patch_witness :
    threadModels (chatPOST (some "u1") reqHi db0 (.ok ["Hello"]) (.ok "T") "m1" 5).db =
      threadModels db0
    ∧ threadModels ({
        threads := [{ th1 with title := "Renamed" }],
        messages := dbLocked.messages } : DB) = threadModels dbLocked
    ∧ ({ th1 with model_id := "haiku-4-5" } : Thread).model_id = "haiku-4-5" :=
  ⟨model_id_immutable_except_patch.1 (some "u1") reqHi db0 (.ok ["Hello"])
      (.ok "T") "m1" 5,
   model_id_immutable_except_patch.2.1 (some "u1") "t1" ⟨some "Renamed", none⟩
      dbLocked _ _ rfl rfl,
   model_id_immutable_except_patch.2.2 (some "u1") "t1" ⟨none, some "haiku-4-5"⟩
      dbLocked _ _ "haiku-4-5" rfl rfl⟩

/-- Counterexample to C9 as stated: on a conversation whose registry model
is the anthropic entry `"haiku-4-5"`, generation actually uses the
resolved concrete name `"claude-3-5-haiku-20241022"`, but the persisted
assistant Turn's model name field is `"haiku-4-5"` — so the persisted name
does not equal the concrete model name used for generation for every
provider kind. -/
theorem assistant_model_name_not_concrete :
    providerModels
      (chatPOST (some "u1") reqHaiku dbHaiku (.ok ["Hello"]) (.ok "T") "m1" 3).trace =
      ["claude-3-5-haiku-20241022"]
    ∧ (assistantTurns
        (chatPOST (some "u1") reqHaiku dbHaiku (.ok ["Hello"]) (.ok "T") "m1" 3).trace).map
        Message.model_name = [some "haiku-4-5"]
    ∧ ("haiku-4-5" : String) ≠ "claude-3-5-haiku-20241022" :=
  ⟨rfl, rfl, by decide⟩

/-- Claim C9 (amended): for every request that completes normally, the
persisted assistant Turn's model name field equals the conversation's
registry model id (`thread.model_id`), not the resolved concrete name;
the two coincide for every non-anthropic registry entry (openai ids map to
themselves and openrouter ids pass through verbatim) but differ for the
anthropic entry. -/
theorem assistant_model_name_is_registry_id
    (u : String) (req : ChatRequest) (db : DB) (chunks : List String)
    (titleResult : Except Unit String) (messageId : String) (now : Nat)
    (tid : String) (thread : Thread) (cfg : ModelConfig)
    (htid : effectiveThreadId req = some tid)
    (hthread : findThread db tid = some thread)
    (hmodel : getModelById thread.model_id = some cfg) :
    (assistantTurns
        (chatPOST (some u) req db (.ok chunks) titleResult messageId now).trace).map
        Message.model_name = [some thread.model_id]
    ∧ (∀ cfg2 ∈ AVAILABLE_MODELS, cfg2.provider ≠ .anthropic →
        resolveModel cfg2.provider cfg2.id = cfg2.id)
    ∧ resolveModel .anthropic "haiku-4-5" ≠ "haiku-4-5" := by
  refine ⟨?_, ?_, by decide⟩
  · rw [chatPOST_ok_spec u req db chunks titleResult messageId now tid thread
      cfg htid hthread hmodel]
    dsimp only
    rw [assistantTurns_append, assistantTurns_append, assistantTurns_onFinish,
      assistantTurns_userStep, assistantTurns_provider]
    rfl
  · intro cfg2 hmem hprov
    fin_cases hmem <;> first | rfl | exact absurd rfl hprov

/-- Witness for C9 (amended): on the `gpt-4o` conversation the persisted
assistant model name is the registry id `"gpt-4o"`. -/
theorem assistant_model_name_is_registry_id_witness :
    (assistantTurns
        (chatPOST (some "u1") reqHi db0 (.ok ["Hello"]) (.ok "T") "m1" 5).trace).map
        Message.model_name = [some th1.model_id]
    ∧ (∀ cfg2 ∈ AVAILABLE_MODELS, cfg2.provider ≠ .anthropic →
        resolveModel cfg2.provider cfg2.id = cfg2.id)
    ∧ resolveModel .anthropic "haiku-4-5" ≠ "haiku-4-5" :=
  assistant_model_name_is_registry_id "u1" reqHi db0 ["Hello"] (.ok "T")
    "m1" 5 "t1" th1 gpt4oCfg rfl rfl rfl

end ChatClone
